import Mathlib

/-!
Verification development for the NeoMind test-harness scripts
(`scripts/comprehensive_test.py` and `scripts/generate_test_data.py`).

The two Python scripts are shallowly embedded below.  Network effects are
modelled by an oracle: a function from the request index to the outcome of
that HTTP request.  Python strings are modelled by `String`, Python
character slicing and substring search by operations on `String.data`
(Python slices/searches by code point, as does `List Char`).  Python
integers that are always non-negative are modelled by `Nat`; Python's
floor division `//` on non-negative operands coincides with `Nat.div`.
-/

namespace NeoMind

/-- Character-list prefix test, modelling Python `str.startswith` and used
as the building block of substring search. -/
def lpfx : List Char → List Char → Bool
  | [], _ => true
  | _ :: _, [] => false
  | a :: as, b :: bs => a == b && lpfx as bs

/-- Character-list substring test. -/
def linfix (n : List Char) : List Char → Bool
  | [] => lpfx n []
  | c :: t => lpfx n (c :: t) || linfix n t

/-- Python `needle in hay` on strings: code-point substring containment. -/
def pyContains (needle hay : String) : Bool :=
  linfix needle.data hay.data

/-- Python `s.upper()` restricted to the ASCII mapping (the only characters
the scripts compare after uppercasing are ASCII; CJK characters are fixed
points of both mappings). -/
def pyUpper (s : String) : String :=
  String.mk (s.data.map Char.toUpper)

/-- Python `s[:n]`: the first `n` code points of `s`. -/
def pySlice (n : Nat) (s : String) : String :=
  String.mk (s.data.take n)

/-- Python `repr` of a list of strings, as interpolated by
`f"Tools Called: {tools}"` (quote characters written via their code point). -/
def pyListRepr (xs : List String) : String :=
  let q := String.mk [Char.ofNat 39]
  "[" ++ String.intercalate ", " (xs.map (fun s => q ++ s ++ q)) ++ "]"

/-- Python `f"{s:<n}"`: left-justify in a field of width `n`. -/
def padTo (n : Nat) (s : String) : String :=
  s ++ String.mk (List.replicate (n - s.data.length) ' ')

/-- `"=" * 50` used as a separator line in the report file. -/
def eq50 : String := String.mk (List.replicate 50 '=')

/-! ## comprehensive_test.py -/

/-- One entry of the static `SCENARIOS` list. -/
structure Scenario where
  name : String
  desc : String
  expected : List String
  category : String
deriving DecidableEq, Repr

/-- The JSON body returned by `POST /api/sessions/{id}/chat`, with the three
keys the script reads; each is optional because the script defends every
access with `.get`. -/
structure ServerChat where
  response : Option String
  toolsUsed : Option (List String)
  processingTimeMs : Option Nat
deriving DecidableEq, Repr

/-- Outcome of one chat HTTP request as seen by `send_message`:
a response (with the wall-clock time the call took), a
`requests.exceptions.Timeout`, or any other network error
(e.g. `requests.exceptions.ConnectionError`). -/
inductive ChatOutcome where
  | ok (server : ServerChat) (elapsedMs : Nat)
  | timeoutExc
  | netError
deriving DecidableEq, Repr

/-- The dictionary `send_message` hands back to its caller: the server JSON
plus the key `measuredTimeMs` the function always sets. -/
structure ChatResp where
  response : Option String
  toolsUsed : Option (List String)
  processingTimeMs : Option Nat
  measuredTimeMs : Option Nat
deriving DecidableEq, Repr

/-- `send_message` (comprehensive_test.py lines 35-49): on success it returns
the parsed JSON with `measuredTimeMs` added; a `requests.exceptions.Timeout`
is caught and turned into the degraded dictionary
`\x7b"response": "TIMEOUT", "toolsUsed": [], "measuredTimeMs": timeout*1000\x7d`;
any other network error propagates out of the function (`.error`). -/
def send_message (timeoutS : Nat) (o : ChatOutcome) : Except Unit ChatResp :=
  match o with
  | .ok server elapsed =>
      .ok { response := server.response, toolsUsed := server.toolsUsed,
            processingTimeMs := server.processingTimeMs,
            measuredTimeMs := some elapsed }
  | .timeoutExc =>
      .ok { response := some "TIMEOUT", toolsUsed := some [],
            processingTimeMs := none, measuredTimeMs := some (timeoutS * 1000) }
  | .netError => .error ()

/-- `extract_tools_info` (lines 51-53): `(len(tools), tools)` with
`tools = resp.get("toolsUsed", [])`. -/
def extract_tools_info (r : ChatResp) : Nat × List String :=
  ((r.toolsUsed.getD []).length, r.toolsUsed.getD [])

/-- `duration = resp.get("measuredTimeMs", resp.get("processingTimeMs", 0))`
(line 159). -/
def respDuration (r : ChatResp) : Nat :=
  r.measuredTimeMs.getD (r.processingTimeMs.getD 0)

/-- `response_text = resp.get("response", "")[:200]` (line 161). -/
def respText (r : ChatResp) : String :=
  pySlice 200 (r.response.getD "")

/-- The timeout classification (line 164):
`duration >= 90000 or "TIMEOUT" in response_text.upper() or "超时" in response_text`. -/
def isTimeoutFlag (duration : Nat) (response_text : String) : Bool :=
  decide (duration ≥ 90000) || pyContains "TIMEOUT" (pyUpper response_text)
    || pyContains "超时" response_text

/-- The static `SCENARIOS` list (lines 56-117). -/
def SCENARIOS : List Scenario :=
  [ { name := "B1-晨间例程",
      desc := "早上7点到了，帮我：打开客厅灯、查看室温、查看今天的自动化规则状态",
      expected := ["control_device", "list_devices", "list_rules"],
      category := "routine" },
    { name := "B2-环境监控",
      desc := "帮我看一下所有传感器的数据，包括温度、湿度，如果有异常请告诉我",
      expected := ["list_devices", "query_data", "get_device_metrics"],
      category := "monitoring" },
    { name := "B3-并行查询",
      desc := "同时帮我查看：1.所有规则列表 2.所有设备列表 3.所有设备类型",
      expected := ["list_rules", "list_devices", "list_device_types"],
      category := "parallel" },
    { name := "B4-规则创建",
      desc := "我想创建一个自动化规则：当温度传感器temperature值超过35度时，发送高温告警通知",
      expected := ["get_device_metrics", "create_rule"],
      category := "automation" },
    { name := "B5-上下文跟进",
      desc := "刚才创建的规则ID是什么？帮我启用这个规则",
      expected := ["enable_rule"],
      category := "context" },
    { name := "B6-批量控制",
      desc := "把所有relay类型的设备同时打开",
      expected := ["batch_control_devices"],
      category := "control" },
    { name := "B7-数据查询",
      desc := "查询sensor1设备在过去1小时的温度数据",
      expected := ["query_data"],
      category := "query" },
    { name := "B8-设备配置",
      desc := "将sensor1设备的采样率设置为30秒，报警阈值设置为80",
      expected := ["set_device_config"],
      category := "config" },
    { name := "B9-故障排查",
      desc := "sensor1设备好像不工作，帮我检查它的状态、配置和最近的数据",
      expected := ["query_device_status", "get_device_config", "query_data"],
      category := "troubleshoot" },
    { name := "B10-复杂请求",
      desc := "帮我做一次系统全面检查：列出所有设备、所有规则、所有设备类型，并告诉我哪些设备支持温度监控",
      expected := ["list_devices", "list_rules", "list_device_types", "get_device_metrics"],
      category := "complex" } ]

/-- One element of `results["tests"]` (lines 186-193). -/
structure TestResult where
  name : String
  category : String
  tools_count : Nat
  tools : List String
  duration : Nat
  timeout : Bool
deriving DecidableEq, Repr

/-- The `results` dictionary accumulated by `run_model_tests`
(lines 130-141). -/
structure Results where
  model : String
  session_id : String
  tests : List TestResult
  total : Nat
  passed : Nat
  timeouts : Nat
  total_tools : Nat
  total_time : Nat
  parallel_count : Nat
  context_count : Nat
deriving DecidableEq, Repr

/-- Initial value of `results` for a model run. -/
def initResults (model session : String) : Results :=
  { model := model, session_id := session, tests := [], total := 0,
    passed := 0, timeouts := 0, total_tools := 0, total_time := 0,
    parallel_count := 0, context_count := 0 }

/-- The per-scenario `test_result` record (lines 186-193). -/
def mkTestResult (sc : Scenario) (r : ChatResp) : TestResult :=
  { name := sc.name, category := sc.category,
    tools_count := (extract_tools_info r).1,
    tools := (extract_tools_info r).2,
    duration := respDuration r,
    timeout := isTimeoutFlag (respDuration r) (respText r) }

/-- One loop iteration's effect on `results` (lines 149-194): `total` is
incremented, exactly one of `passed`/`timeouts` is incremented according to
the timeout classification, the tool and time counters are accumulated, and
the test record is appended. -/
def stepState (sc : Scenario) (r : ChatResp) (st : Results) : Results :=
  let duration := respDuration r
  let tools_count := (extract_tools_info r).1
  let is_timeout := isTimeoutFlag duration (respText r)
  { st with
    total := st.total + 1,
    timeouts := if is_timeout then st.timeouts + 1 else st.timeouts,
    passed := if is_timeout then st.passed else st.passed + 1,
    total_tools := st.total_tools + tools_count,
    total_time := st.total_time + duration,
    parallel_count := if tools_count ≥ 2 then st.parallel_count + 1 else st.parallel_count,
    context_count := if sc.category == "context" && decide (tools_count > 0)
                     then st.context_count + 1 else st.context_count,
    tests := st.tests ++ [mkTestResult sc r] }

/-- The strings written to the report file during one loop iteration
(lines 154-175). -/
def scenarioWrites (sc : Scenario) (r : ChatResp) : List String :=
  let duration := respDuration r
  let tools := (extract_tools_info r).2
  let tools_count := (extract_tools_info r).1
  let response_text := respText r
  let is_timeout := isTimeoutFlag duration response_text
  [ "TEST: " ++ sc.name ++ "\n",
    "Description: " ++ sc.desc ++ "\n",
    "Expected: " ++ String.intercalate ", " sc.expected ++ "\n",
    (if is_timeout then
       "Result: TIMEOUT (" ++ toString duration ++ "ms)\n"
     else
       "Result: PASS (tools: " ++ toString tools_count ++ ", time: "
         ++ toString duration ++ "ms)\n"),
    "Tools Called: " ++ pyListRepr tools ++ "\n",
    "Response: " ++ response_text ++ "\n\n" ]

/-- The scenario loop of `run_model_tests` (lines 149-195), driven by the
network oracle.  If any request raises a non-timeout network error the
exception propagates (`.error`) exactly as in Python, where it would abort
the script. -/
def processScenarios (oracle : Nat → ChatOutcome) :
    List Scenario → Nat → Results → Except Unit (Results × List String)
  | [], _, st => .ok (st, [])
  | sc :: rest, i, st =>
    match send_message 90 (oracle i) with
    | .error _ => .error ()
    | .ok resp =>
      match processScenarios oracle rest (i + 1) (stepState sc resp st) with
      | .error _ => .error ()
      | .ok (stF, ws) => .ok (stF, scenarioWrites sc resp ++ ws)

/-- The header written before the loop (lines 143-147). -/
def headerWrites (model session date : String) : List String :=
  [ "MODEL: " ++ model ++ "\n",
    "SESSION: " ++ session ++ "\n",
    "DATE: " ++ date ++ "\n",
    eq50 ++ "\n\n" ]

/-- The summary block written after the loop (lines 197-212). -/
def summaryWrites (r : Results) : List String :=
  let avg_time := if r.total > 0 then r.total_time / r.total else 0
  let success_rate := if r.total > 0 then r.passed * 100 / r.total else 0
  [ "\n" ++ eq50 ++ "\n",
    "SUMMARY\n",
    eq50 ++ "\n",
    "Total Tests: " ++ toString r.total ++ "\n",
    "Passed: " ++ toString r.passed ++ "\n",
    "Timeouts: " ++ toString r.timeouts ++ "\n",
    "Success Rate: " ++ toString success_rate ++ "%\n",
    "Total Tools: " ++ toString r.total_tools ++ "\n",
    "Avg Tools/Request: " ++ toString (if r.total > 0 then r.total_tools / r.total else 0) ++ "\n",
    "Parallel Requests: " ++ toString r.parallel_count ++ "\n",
    "Context Success: " ++ toString r.context_count ++ "\n",
    "Avg Time: " ++ toString avg_time ++ "ms\n" ]

/-- `run_model_tests` (lines 119-224) restricted to its observable data:
the final `results` value and the sequence of strings written to the report
file.  The model name switch and session creation are outcome-free network
calls modelled by the `model`/`session` parameters; `date` stands for the
`time.strftime` call. -/
def run_model_tests (model session date : String) (oracle : Nat → ChatOutcome) :
    Except Unit (Results × List String) :=
  match processScenarios oracle SCENARIOS 0 (initResults model session) with
  | .error _ => .error ()
  | .ok (r, ws) => .ok (r, headerWrites model session date ++ ws ++ summaryWrites r)

/-- One row of the CSV comparison file (lines 255-257), with the
rate/average recomputed exactly as in `main`. -/
def csvRow (r : Results) : String :=
  let avg_time := if r.total > 0 then r.total_time / r.total else 0
  let success_rate := if r.total > 0 then r.passed * 100 / r.total else 0
  r.model ++ "," ++ toString r.passed ++ "," ++ toString r.total ++ ","
    ++ toString success_rate ++ "," ++ toString r.total_tools ++ ","
    ++ toString r.parallel_count ++ "," ++ toString r.context_count ++ ","
    ++ toString avg_time ++ "," ++ toString r.timeouts ++ "\n"

/-- One row of the console comparison table (lines 246-248). -/
def consoleRow (r : Results) : String :=
  let avg_time := if r.total > 0 then r.total_time / r.total else 0
  let success_rate := if r.total > 0 then r.passed * 100 / r.total else 0
  padTo 20 r.model ++ " " ++ padTo 6 (toString r.passed) ++ " "
    ++ padTo 6 (toString r.total) ++ " " ++ padTo 6 (toString success_rate) ++ " "
    ++ padTo 6 (toString r.total_tools) ++ " " ++ padTo 8 (toString r.parallel_count) ++ " "
    ++ padTo 8 (toString r.context_count) ++ " " ++ padTo 8 (toString avg_time)

/-- A report line counts as a "TEST:" block header when it starts with the
literal `"TEST: "`. -/
def isTestHdr (w : String) : Bool :=
  lpfx "TEST: ".data w.data

/-! ## generate_test_data.py -/

/-- A Python value as far as the seeder inspects one: enough structure to
decide Python truthiness of a parsed JSON body. -/
inductive PyValue where
  | null
  | bool (b : Bool)
  | int (n : Int)
  | str (s : String)
  | list (xs : List PyValue)
  | dict (kvs : List (String × PyValue))

/-- Python truthiness of a value (`if result:`). -/
def PyValue.truthy : PyValue → Bool
  | .null => false
  | .bool b => b
  | .int n => decide (n ≠ 0)
  | .str s => decide (s ≠ "")
  | .list xs => !xs.isEmpty
  | .dict kvs => !kvs.isEmpty

/-- Python truthiness of an optional value: `None` is falsy. -/
def pyTruthyOpt : Option PyValue → Bool
  | none => false
  | some v => v.truthy

/-- Outcome of one seeder HTTP request: a response with status code, body
text and (when the body is valid JSON) parsed body, or a raised
`requests` exception with its message.  `json := none` on a response means
`response.json()` would raise. -/
inductive HttpOutcome where
  | status (code : Nat) (text : String) (json : Option PyValue)
  | exc (msg : String)

/-- One entry of `ALERTS_DATA`. -/
structure AlertSpec where
  title : String
  message : String
  severity : String
  source : String
deriving DecidableEq, Repr

/-- One entry of `DEVICES_DATA`. -/
structure DeviceSpec where
  id : String
  name : String
  type : String
deriving DecidableEq, Repr

/-- `create_alert` (generate_test_data.py lines 42-62): returns the parsed
body on HTTP 200, otherwise prints an error and returns `None`; a raised
exception (including a JSON decode failure on a 200 body) is caught inside
the function, printed, and also yields `None`.  The second component is the
list of error messages printed. -/
def create_alert (title : String) (_message _severity _source : String)
    (o : HttpOutcome) : Option PyValue × List String :=
  match o with
  | .status code text j =>
      if code == 200 then
        match j with
        | some v => (some v, [])
        | none => (none, ["请求失败: JSONDecodeError"])
      else
        (none, ["创建 Alert 失败: " ++ title ++ " - " ++ text])
  | .exc m => (none, ["请求失败: " ++ m])

/-- `create_device` (lines 65-79): success iff the status code is 200 or
409 ("already exists"); any exception yields `False`; nothing is printed. -/
def create_device (_id _name _type : String) (o : HttpOutcome) : Bool :=
  match o with
  | .status code _ _ => code == 200 || code == 409
  | .exc _ => false

/-- `send_command` (lines 82-95): returns the parsed body on HTTP 200 and
`None` otherwise; exceptions (including JSON decode failures) are caught and
yield `None`; nothing is ever printed. -/
def send_command (_device _cmd : String) (o : HttpOutcome) :
    Option PyValue × List String :=
  match o with
  | .status code _ j =>
      if code == 200 then
        match j with
        | some v => (some v, [])
        | none => (none, [])
      else
        (none, [])
  | .exc _ => (none, [])

/-- `send_telemetry` (lines 98-111): fire and forget — the status code is
never inspected and exceptions are swallowed; nothing is returned or
printed for any outcome. -/
def send_telemetry (_device : String) (_o : HttpOutcome) : Unit × List String :=
  ((), [])

/-- The static `ALERTS_DATA` list (lines 118-225). -/
def ALERTS_DATA : List AlertSpec :=
  [ { title := "烟雾检测", message := "厨房传感器检测到烟雾，请立即确认！",
      severity := "emergency", source := "sensor/kitchen" },
    { title := "漏水警报", message := "地下室检测到漏水，水泵已启动",
      severity := "emergency", source := "sensor/basement" },
    { title := "燃气泄漏", message := "厨房燃气传感器检测到异常，请立即检查！",
      severity := "emergency", source := "sensor/gas" },
    { title := "冰箱温度过高", message := "冰箱内部温度达到 8°C，食物可能变质风险",
      severity := "critical", source := "sensor/fridge" },
    { title := "门锁异常", message := "前门锁连续 3 次开锁失败，可能存在异常尝试",
      severity := "critical", source := "lock/front" },
    { title := "网络中断", message := "网关设备已失去连接超过 10 分钟",
      severity := "critical", source := "network/monitor" },
    { title := "电池电量低", message := "门锁电池电量低于 10%，请及时更换",
      severity := "critical", source := "lock/front" },
    { title := "温度偏高", message := "客厅温度达到 28°C，超过设定阈值 26°C",
      severity := "warning", source := "sensor/living" },
    { title := "湿度过低", message := "卧室湿度降至 30%，建议开启加湿器",
      severity := "warning", source := "sensor/bedroom" },
    { title := "设备离线警告", message := "传感器 sensor/garden-01 已超过 5 分钟未上报数据",
      severity := "warning", source := "device_monitor" },
    { title := "存储空间不足", message := "系统存储空间使用率超过 85%",
      severity := "warning", source := "system/monitor" },
    { title := "电压异常", message := "检测到电压波动，可能影响设备寿命",
      severity := "warning", source := "power/monitor" },
    { title := "系统启动完成", message := "NeoTalk 系统已成功启动，所有服务正常运行",
      severity := "info", source := "system" },
    { title := "固件更新可用", message := "网关设备有新固件版本 v2.1.0 可用",
      severity := "info", source := "update_manager" },
    { title := "定时任务完成", message := "每日数据备份任务已完成",
      severity := "info", source := "scheduler" },
    { title := "设备自动发现", message := "发现 2 个新设备，等待配置",
      severity := "info", source := "discovery" },
    { title := "场景执行成功", message := "「回家模式」场景已自动执行",
      severity := "info", source := "automation" } ]

/-- The static `DEVICES_DATA` list (lines 227-238). -/
def DEVICES_DATA : List DeviceSpec :=
  [ { id := "light/living", name := "客厅灯", type := "light" },
    { id := "light/bedroom", name := "卧室灯", type := "light" },
    { id := "light/kitchen", name := "厨房灯", type := "light" },
    { id := "switch/fan", name := "客厅风扇", type := "switch" },
    { id := "switch/ac", name := "空调", type := "hvac" },
    { id := "sensor/temp", name := "温湿度传感器", type := "sensor" },
    { id := "sensor/door", name := "门磁传感器", type := "sensor" },
    { id := "sensor/motion", name := "人体感应", type := "sensor" },
    { id := "lock/front", name := "前门锁", type := "lock" },
    { id := "curtain/living", name := "客厅窗帘", type := "curtain" } ]

/-- Whether one alert-seeding iteration increments `alerts_created`
(main, lines 272-276): `result = create_alert(...); if result: ...` —
Python truthiness of the returned value. -/
def alertCounted (a : AlertSpec) (o : HttpOutcome) : Bool :=
  pyTruthyOpt (create_alert a.title a.message a.severity a.source o).1

/-- The alert-seeding loop of `main` (lines 271-277): the value of
`alerts_created` after processing the given alert specs, the request at
position `i` answered by `oracle i`. -/
def runAlerts (oracle : Nat → HttpOutcome) : List AlertSpec → Nat → Nat
  | [], _ => 0
  | a :: rest, i =>
      (if alertCounted a (oracle i) then 1 else 0) + runAlerts oracle rest (i + 1)

/-- Python keyword-argument binding for a function whose
positional-or-keyword parameters are exactly `params`, with no defaults and
no catch-all: a call `f(**kwargs)` raises `TypeError` (modelled as `none`)
unless every keyword names a parameter and every parameter receives a
keyword.  The binding happens at the call site, before the function body —
and therefore before any `try` inside the body — runs. -/
def bindKwargs (params : List String) (kwargs : List (String × String)) :
    Option (List (String × String)) :=
  if kwargs.all (fun kv => params.contains kv.1)
      && params.all (fun p => kwargs.any (fun kv => kv.1 == p)) then
    some kwargs
  else
    none

/-- The parameter names of `create_alert` (line 42):
`title`, `message`, `severity`, `source`. -/
def create_alert_params : List String := ["title", "message", "severity", "source"]

/-- The keyword dictionary `**alert_data` passed by `main` (line 273) for
one entry of `ALERTS_DATA`: its keys match `create_alert`'s parameters, so
the binding succeeds for every alert record. -/
def alertKwargs (a : AlertSpec) : List (String × String) :=
  [("title", a.title), ("message", a.message),
   ("severity", a.severity), ("source", a.source)]

/-- The parameter names of `create_device` (line 65):
`device_id`, `name`, `device_type`. -/
def create_device_params : List String := ["device_id", "name", "device_type"]

/-- The keyword dictionary `**device` passed by `main` (line 283) for one
entry of `DEVICES_DATA`: its keys are the dict keys `id`, `name`, `type` —
two of which name no parameter of `create_device`. -/
def deviceKwargs (d : DeviceSpec) : List (String × String) :=
  [("id", d.id), ("name", d.name), ("type", d.type)]

/-- The device-seeding loop of `main` (lines 281-285), with Python's
call-site keyword binding made explicit: each iteration first binds
`**device` against `create_device`'s parameters; if the binding fails the
raised `TypeError` is outside the helper's `try` and `main` has no handler,
so the loop aborts (`.error` carries the message and the device ids POSTed
before the abort).  On success (`.ok`) it yields `devices_created` and the
list of device ids POSTed, in order. -/
def runDevices (oracle : Nat → HttpOutcome) :
    List DeviceSpec → Nat → Except (String × List String) (Nat × List String)
  | [], _ => .ok (0, [])
  | d :: rest, i =>
      if (bindKwargs create_device_params (deviceKwargs d)).isSome then
        match runDevices oracle rest (i + 1) with
        | .error (e, ids) => .error (e, d.id :: ids)
        | .ok (n, ids) =>
            .ok ((if create_device d.id d.name d.type (oracle i) then 1 else 0) + n,
                 d.id :: ids)
      else
        .error ("TypeError: create_device() got an unexpected keyword argument", [])

/-- An idempotent device-creation endpoint, as hypothesised by the spec's
double-seeding property: the server keeps a set of known device ids and a
creation request for an existing id leaves the set unchanged. -/
def idempotentCreate (state : List String) (id : String) : List String :=
  if id ∈ state then state else state ++ [id]

/-- The server state after serving every device-creation POST of one
seeder run, starting from `state`. -/
def serveRun (state : List String) (ids : List String) : List String :=
  ids.foldl idempotentCreate state

/-! ## Auxiliary pure view of the scenario loop

When no request raises a non-timeout network error, `processScenarios` is
the exception-free fold below; all counting arguments go through it. -/

/-- The dictionary `send_message` returns when the outcome is not a
propagating network error. -/
def respOf (timeoutS : Nat) (o : ChatOutcome) : ChatResp :=
  match o with
  | .ok server elapsed =>
      { response := server.response, toolsUsed := server.toolsUsed,
        processingTimeMs := server.processingTimeMs,
        measuredTimeMs := some elapsed }
  | _ =>
      { response := some "TIMEOUT", toolsUsed := some [],
        processingTimeMs := none, measuredTimeMs := some (timeoutS * 1000) }

/-- Exception-free view of the state accumulation of the scenario loop. -/
def pureRun (oracle : Nat → ChatOutcome) : List Scenario → Nat → Results → Results
  | [], _, st => st
  | sc :: rest, i, st =>
      pureRun oracle rest (i + 1) (stepState sc (respOf 90 (oracle i)) st)

/-- Exception-free view of the report lines of the scenario loop. -/
def pureWrites (oracle : Nat → ChatOutcome) : List Scenario → Nat → List String
  | [], _ => []
  | sc :: rest, i =>
      scenarioWrites sc (respOf 90 (oracle i)) ++ pureWrites oracle rest (i + 1)

/-- The test records produced by the scenario loop, in order. -/
def testsOf (oracle : Nat → ChatOutcome) : List Scenario → Nat → List TestResult
  | [], _ => []
  | sc :: rest, i =>
      mkTestResult sc (respOf 90 (oracle i)) :: testsOf oracle rest (i + 1)

theorem send_message_ok (o : ChatOutcome) (h : o ≠ ChatOutcome.netError) :
    send_message 90 o = .ok (respOf 90 o) := by
  cases o with
  | ok s e => rfl
  | timeoutExc => rfl
  | netError => exact absurd rfl h

theorem processScenarios_eq (oracle : Nat → ChatOutcome)
    (h : ∀ j, oracle j ≠ ChatOutcome.netError) :
    ∀ (l : List Scenario) (i : Nat) (st : Results),
      processScenarios oracle l i st = .ok (pureRun oracle l i st, pureWrites oracle l i)
  | [], _, _ => rfl
  | sc :: rest, i, st => by
      have hs := send_message_ok (oracle i) (h i)
      have hrec := processScenarios_eq oracle h rest (i + 1)
        (stepState sc (respOf 90 (oracle i)) st)
      simp [processScenarios, hs, hrec, pureRun, pureWrites]

theorem pureRun_total (oracle : Nat → ChatOutcome) :
    ∀ (l : List Scenario) (i : Nat) (st : Results),
      (pureRun oracle l i st).total = st.total + l.length
  | [], _, _ => rfl
  | sc :: rest, i, st => by
      rw [pureRun, pureRun_total oracle rest]
      simp [stepState]
      omega

theorem pureRun_passed_timeouts (oracle : Nat → ChatOutcome) :
    ∀ (l : List Scenario) (i : Nat) (st : Results),
      (pureRun oracle l i st).passed + (pureRun oracle l i st).timeouts
        = st.passed + st.timeouts + l.length
  | [], _, _ => rfl
  | sc :: rest, i, st => by
      rw [pureRun, pureRun_passed_timeouts oracle rest]
      simp only [stepState]
      by_cases hT : isTimeoutFlag (respDuration (respOf 90 (oracle i)))
          (respText (respOf 90 (oracle i))) = true
      · simp [hT]; omega
      · simp [hT]; omega

theorem pureRun_tests (oracle : Nat → ChatOutcome) :
    ∀ (l : List Scenario) (i : Nat) (st : Results),
      (pureRun oracle l i st).tests = st.tests ++ testsOf oracle l i
  | [], _, st => by simp [pureRun, testsOf]
  | sc :: rest, i, st => by
      rw [pureRun, pureRun_tests oracle rest, testsOf]
      simp [stepState]

theorem pureRun_total_tools (oracle : Nat → ChatOutcome) :
    ∀ (l : List Scenario) (i : Nat) (st : Results),
      (pureRun oracle l i st).total_tools
        = st.total_tools + ((testsOf oracle l i).map (fun t => t.tools_count)).sum
  | [], _, _ => by simp [pureRun, testsOf]
  | sc :: rest, i, st => by
      rw [pureRun, pureRun_total_tools oracle rest, testsOf]
      simp [stepState, mkTestResult]
      omega

theorem pureRun_parallel (oracle : Nat → ChatOutcome) :
    ∀ (l : List Scenario) (i : Nat) (st : Results),
      (pureRun oracle l i st).parallel_count
        = st.parallel_count
          + (testsOf oracle l i).countP (fun t => decide (2 ≤ t.tools_count))
  | [], _, _ => by simp [pureRun, testsOf]
  | sc :: rest, i, st => by
      rw [pureRun, pureRun_parallel oracle rest, testsOf, List.countP_cons]
      simp only [stepState, mkTestResult]
      by_cases h2 : 2 ≤ (extract_tools_info (respOf 90 (oracle i))).1
      · simp [h2]; omega
      · simp [h2]

theorem pureRun_context (oracle : Nat → ChatOutcome) :
    ∀ (l : List Scenario) (i : Nat) (st : Results),
      (pureRun oracle l i st).context_count
        = st.context_count
          + (testsOf oracle l i).countP
              (fun t => t.category == "context" && decide (0 < t.tools_count))
  | [], _, _ => by simp [pureRun, testsOf]
  | sc :: rest, i, st => by
      rw [pureRun, pureRun_context oracle rest, testsOf, List.countP_cons]
      simp only [stepState, mkTestResult]
      by_cases hc : (sc.category == "context"
          && decide (0 < (extract_tools_info (respOf 90 (oracle i))).1)) = true
      · simp [hc]; omega
      · simp [hc]

theorem testsOf_names (oracle : Nat → ChatOutcome) :
    ∀ (l : List Scenario) (i : Nat),
      (testsOf oracle l i).map (fun t => t.name) = l.map (fun sc => sc.name)
  | [], _ => rfl
  | sc :: rest, i => by
      rw [testsOf]
      simp [mkTestResult, testsOf_names oracle rest]

theorem testsOf_tools_count (oracle : Nat → ChatOutcome) :
    ∀ (l : List Scenario) (i : Nat),
      (testsOf oracle l i).map (fun t => t.tools_count)
        = (testsOf oracle l i).map (fun t => t.tools.length)
  | [], _ => rfl
  | sc :: rest, i => by
      rw [testsOf]
      simp [mkTestResult, extract_tools_info, testsOf_tools_count oracle rest]

theorem scenarioWrites_countP (sc : Scenario) (r : ChatResp) :
    (scenarioWrites sc r).countP isTestHdr = 1 := by
  cases h : isTimeoutFlag (respDuration r) (respText r) with
  | false => simp only [scenarioWrites, h]; rfl
  | true => simp only [scenarioWrites, h]; rfl

theorem pureWrites_countP (oracle : Nat → ChatOutcome) :
    ∀ (l : List Scenario) (i : Nat),
      (pureWrites oracle l i).countP isTestHdr = l.length
  | [], _ => rfl
  | sc :: rest, i => by
      rw [pureWrites, List.countP_append, scenarioWrites_countP,
        pureWrites_countP oracle rest]
      simp [Nat.add_comm]

theorem headerWrites_countP (model session date : String) :
    (headerWrites model session date).countP isTestHdr = 0 := rfl

theorem summaryWrites_countP (r : Results) :
    (summaryWrites r).countP isTestHdr = 0 := rfl

theorem testsOf_length (oracle : Nat → ChatOutcome) :
    ∀ (l : List Scenario) (i : Nat), (testsOf oracle l i).length = l.length
  | [], _ => rfl
  | sc :: rest, i => by rw [testsOf]; simp [testsOf_length oracle rest]

theorem testsOf_tools_count_mem (oracle : Nat → ChatOutcome) :
    ∀ (l : List Scenario) (i : Nat),
      ∀ t ∈ testsOf oracle l i, t.tools_count = t.tools.length
  | [], _ => by simp [testsOf]
  | sc :: rest, i => by
      rw [testsOf]
      intro t ht
      rcases List.mem_cons.mp ht with h | h
      · subst h; simp [mkTestResult, extract_tools_info]
      · exact testsOf_tools_count_mem oracle rest (i + 1) t h

theorem mem_summaryWrites_total (r : Results) :
    ("Total Tests: " ++ toString r.total ++ "\n") ∈ summaryWrites r := by
  simp [summaryWrites]

/-! ## Claims -/

/-- C1 counterexample: the claim says every network error during an
individual chat request is caught and converted into a degraded result and
the run completes.  In the code only `requests.exceptions.Timeout` is
caught; any other network error (e.g. a connection error, `netError` in the
model) propagates out of `send_message`, and the whole model run aborts
without producing a report. -/
theorem C1_counterexample :
    send_message 90 ChatOutcome.netError = .error ()
      ∧ run_model_tests "gpt-oss:20b" "sess-1" "2026-01-01 00:00:00"
          (fun _ => ChatOutcome.netError) = .error () := by
  exact ⟨rfl, rfl⟩

/-- C1 (amended): a timeout raised during an individual chat request is
caught and converted into the degraded result (response "TIMEOUT", empty
tool list, measured time 90 s), which the classification puts in the
timeout bucket; and whenever no request raises a non-timeout network error
the run completes, returning its results and report writes. -/
theorem C1_timeout_errors_degrade_and_run_completes
    (model session date : String) (oracle : Nat → ChatOutcome)
    (h : ∀ i, oracle i ≠ ChatOutcome.netError) :
    send_message 90 ChatOutcome.timeoutExc
        = .ok { response := some "TIMEOUT", toolsUsed := some [],
                processingTimeMs := none, measuredTimeMs := some 90000 }
      ∧ (∀ sc : Scenario,
          (mkTestResult sc (respOf 90 ChatOutcome.timeoutExc)).timeout = true)
      ∧ ∃ r ws, run_model_tests model session date oracle = .ok (r, ws) := by
  refine ⟨rfl, fun sc => rfl, ?_⟩
  refine ⟨pureRun oracle SCENARIOS 0 (initResults model session),
    headerWrites model session date ++ pureWrites oracle SCENARIOS 0
      ++ summaryWrites (pureRun oracle SCENARIOS 0 (initResults model session)), ?_⟩
  rw [run_model_tests, processScenarios_eq oracle h]

/-- C1 witness: a run in which every request times out completes. -/
theorem C1_witness :
    send_message 90 ChatOutcome.timeoutExc
        = .ok { response := some "TIMEOUT", toolsUsed := some [],
                processingTimeMs := none, measuredTimeMs := some 90000 }
      ∧ (∀ sc : Scenario,
          (mkTestResult sc (respOf 90 ChatOutcome.timeoutExc)).timeout = true)
      ∧ ∃ r ws, run_model_tests "gpt-oss:20b" "sess-1" "2026-01-01 00:00:00"
          (fun _ => ChatOutcome.timeoutExc) = .ok (r, ws) :=
  C1_timeout_errors_degrade_and_run_completes "gpt-oss:20b" "sess-1"
    "2026-01-01 00:00:00" (fun _ => ChatOutcome.timeoutExc)
    (fun _ h => ChatOutcome.noConfusion h)

/-- C2: a scenario whose measured duration strictly exceeds the 90000 ms
threshold is classified as a timeout (its test record carries
`timeout = true`, the timeout counter is incremented and the passed counter
is untouched), never as a pass. -/
theorem C2_exceeding_threshold_is_timeout_never_pass
    (sc : Scenario) (r : ChatResp) (st : Results)
    (h : respDuration r > 90000) :
    (mkTestResult sc r).timeout = true
      ∧ (stepState sc r st).passed = st.passed
      ∧ (stepState sc r st).timeouts = st.timeouts + 1 := by
  have hge : (90000 ≤ respDuration r) := Nat.le_of_lt h
  have hf : isTimeoutFlag (respDuration r) (respText r) = true := by
    simp [isTimeoutFlag, hge]
  exact ⟨by simp [mkTestResult, hf], by simp [stepState, hf], by simp [stepState, hf]⟩

/-- C2 witness: a response measured at 90001 ms is recorded as a timeout. -/
theorem C2_witness :
    (mkTestResult ⟨"B1", "d", [], "routine"⟩
        ⟨some "ok", some ["list_devices"], none, some 90001⟩).timeout = true
      ∧ (stepState ⟨"B1", "d", [], "routine"⟩
          ⟨some "ok", some ["list_devices"], none, some 90001⟩
          (initResults "m" "s")).passed = (initResults "m" "s").passed
      ∧ (stepState ⟨"B1", "d", [], "routine"⟩
          ⟨some "ok", some ["list_devices"], none, some 90001⟩
          (initResults "m" "s")).timeouts = (initResults "m" "s").timeouts + 1 :=
  C2_exceeding_threshold_is_timeout_never_pass ⟨"B1", "d", [], "routine"⟩
    ⟨some "ok", some ["list_devices"], none, some 90001⟩ (initResults "m" "s")
    (by decide)

/-- C7 counterexample: the claim says any response body containing
"TIMEOUT" is classified as a timeout, but the code inspects only the first
200 characters (`resp.get("response", "")[:200]`): a body consisting of 200
filler characters followed by "TIMEOUT" contains the marker yet is
classified as a pass. -/
theorem C7_counterexample :
    pyContains "TIMEOUT"
        (pyUpper (String.mk (List.replicate 200 'a') ++ "TIMEOUT")) = true
      ∧ (mkTestResult ⟨"B1", "d", [], "routine"⟩
          ⟨some (String.mk (List.replicate 200 'a') ++ "TIMEOUT"),
           some [], none, some 5⟩).timeout = false := by
  exact ⟨by decide, by decide⟩

/-- C7 (amended): a response is classified as a timeout whenever the first
200 characters of its body contain "TIMEOUT" after uppercasing, or contain
the localized word "超时"; a marker appearing only beyond the first 200
characters is not detected. -/
theorem C7_marker_in_first_200_chars_forces_timeout (sc : Scenario) (r : ChatResp)
    (h : pyContains "TIMEOUT" (pyUpper (respText r)) = true
         ∨ pyContains "超时" (respText r) = true) :
    (mkTestResult sc r).timeout = true := by
  rcases h with h | h <;> simp [mkTestResult, isTimeoutFlag, h]

/-- C7 witness: a short body containing lowercase "timeout", and one
containing "超时", are both classified as timeouts. -/
theorem C7_witness :
    (mkTestResult ⟨"B1", "d", [], "routine"⟩
        ⟨some "request timeout", some [], none, some 5⟩).timeout = true :=
  C7_marker_in_first_200_chars_forces_timeout ⟨"B1", "d", [], "routine"⟩
    ⟨some "request timeout", some [], none, some 5⟩ (Or.inl (by decide))

/-- C9: after any number of scenario iterations (any prefix of the scenario
list), the accumulated counters satisfy `passed + timeouts = total`: each
executed scenario lands in exactly one of the two buckets. -/
theorem C9_passed_plus_timeouts_eq_total
    (model session : String) (oracle : Nat → ChatOutcome) (n : Nat)
    (h : ∀ i, oracle i ≠ ChatOutcome.netError) :
    ∃ r ws, processScenarios oracle (SCENARIOS.take n) 0 (initResults model session)
        = .ok (r, ws) ∧ r.passed + r.timeouts = r.total := by
  refine ⟨_, _, processScenarios_eq oracle h (SCENARIOS.take n) 0 _, ?_⟩
  rw [pureRun_passed_timeouts, pureRun_total]
  simp [initResults]

/-- C9 witness: after three iterations of an all-timeout run the counter
identity holds. -/
theorem C9_witness :
    ∃ r ws, processScenarios (fun _ => ChatOutcome.timeoutExc) (SCENARIOS.take 3) 0
        (initResults "gpt-oss:20b" "sess-1") = .ok (r, ws)
      ∧ r.passed + r.timeouts = r.total :=
  C9_passed_plus_timeouts_eq_total "gpt-oss:20b" "sess-1"
    (fun _ => ChatOutcome.timeoutExc) 3 (fun _ h => ChatOutcome.noConfusion h)

/-- C3: a completed model run over the fixed 10-entry scenario list
produces exactly one TestResult per scenario (in order), the summary total
equals the number of defined scenarios, and the report writes contain
exactly 10 "TEST:" block headers and the line "Total Tests: 10". -/
theorem C3_one_result_per_scenario_and_report_shape
    (model session date : String) (oracle : Nat → ChatOutcome)
    (h : ∀ i, oracle i ≠ ChatOutcome.netError) :
    ∃ r ws, run_model_tests model session date oracle = .ok (r, ws)
      ∧ r.tests.length = SCENARIOS.length
      ∧ r.tests.map (fun t => t.name) = SCENARIOS.map (fun sc => sc.name)
      ∧ r.total = SCENARIOS.length
      ∧ SCENARIOS.length = 10
      ∧ ws.countP isTestHdr = 10
      ∧ "Total Tests: 10\n" ∈ ws := by
  have htot : (pureRun oracle SCENARIOS 0 (initResults model session)).total = 10 := by
    rw [pureRun_total]; rfl
  refine ⟨pureRun oracle SCENARIOS 0 (initResults model session),
    headerWrites model session date ++ pureWrites oracle SCENARIOS 0
      ++ summaryWrites (pureRun oracle SCENARIOS 0 (initResults model session)),
    ?_, ?_, ?_, ?_, rfl, ?_, ?_⟩
  · rw [run_model_tests, processScenarios_eq oracle h]
  · rw [pureRun_tests]
    simp [initResults, testsOf_length]
  · rw [pureRun_tests]
    simp [initResults, testsOf_names]
  · rw [pureRun_total]; rfl
  · rw [List.countP_append, List.countP_append, headerWrites_countP,
      pureWrites_countP, summaryWrites_countP]
    decide
  · refine List.mem_append_right _ ?_
    have h4 := mem_summaryWrites_total
      (pureRun oracle SCENARIOS 0 (initResults model session))
    rw [htot] at h4
    exact h4

/-- C3 witness: an all-timeout run exhibits the 10-block report shape. -/
theorem C3_witness :
    ∃ r ws, run_model_tests "gpt-oss:20b" "sess-1" "2026-01-01 00:00:00"
        (fun _ => ChatOutcome.timeoutExc) = .ok (r, ws)
      ∧ r.tests.length = SCENARIOS.length
      ∧ r.tests.map (fun t => t.name) = SCENARIOS.map (fun sc => sc.name)
      ∧ r.total = SCENARIOS.length
      ∧ SCENARIOS.length = 10
      ∧ ws.countP isTestHdr = 10
      ∧ "Total Tests: 10\n" ∈ ws :=
  C3_one_result_per_scenario_and_report_shape "gpt-oss:20b" "sess-1"
    "2026-01-01 00:00:00" (fun _ => ChatOutcome.timeoutExc)
    (fun _ h => ChatOutcome.noConfusion h)

/-- C4: for a nonzero total, the success rate interpolated into the report
summary line, the CSV row and the console comparison row is
`passed * 100 / total` with floor division (and the average time used next
to it is `total_time / total`). -/
theorem C4_success_rate_is_floor_percentage (r : Results) (h : r.total ≠ 0) :
    ("Success Rate: " ++ toString (r.passed * 100 / r.total) ++ "%\n")
        ∈ summaryWrites r
      ∧ csvRow r = r.model ++ "," ++ toString r.passed ++ "," ++ toString r.total
          ++ "," ++ toString (r.passed * 100 / r.total) ++ ","
          ++ toString r.total_tools ++ "," ++ toString r.parallel_count ++ ","
          ++ toString r.context_count ++ "," ++ toString (r.total_time / r.total)
          ++ "," ++ toString r.timeouts ++ "\n"
      ∧ consoleRow r = padTo 20 r.model ++ " " ++ padTo 6 (toString r.passed)
          ++ " " ++ padTo 6 (toString r.total) ++ " "
          ++ padTo 6 (toString (r.passed * 100 / r.total)) ++ " "
          ++ padTo 6 (toString r.total_tools) ++ " "
          ++ padTo 8 (toString r.parallel_count) ++ " "
          ++ padTo 8 (toString r.context_count) ++ " "
          ++ padTo 8 (toString (r.total_time / r.total)) := by
  have hpos : r.total > 0 := Nat.pos_of_ne_zero h
  refine ⟨?_, ?_, ?_⟩
  · simp only [summaryWrites, if_pos hpos]
    exact List.mem_cons_of_mem _ (List.mem_cons_of_mem _ (List.mem_cons_of_mem _
      (List.mem_cons_of_mem _ (List.mem_cons_of_mem _ (List.mem_cons_of_mem _
        (List.mem_cons_self _ _))))))
  · simp only [csvRow, if_pos hpos]
  · simp only [consoleRow, if_pos hpos]

/-- C4 witness: a run with 7 passes out of 10 reports a 70 percent rate in
all three outputs. -/
theorem C4_witness :
    ("Success Rate: " ++ toString (7 * 100 / 10) ++ "%\n")
        ∈ summaryWrites ⟨"m", "s", [], 10, 7, 3, 12, 50000, 4, 1⟩
      ∧ csvRow ⟨"m", "s", [], 10, 7, 3, 12, 50000, 4, 1⟩
          = "m" ++ "," ++ toString 7 ++ "," ++ toString 10 ++ ","
            ++ toString (7 * 100 / 10) ++ "," ++ toString 12 ++ ","
            ++ toString 4 ++ "," ++ toString 1 ++ "," ++ toString (50000 / 10)
            ++ "," ++ toString 3 ++ "\n"
      ∧ consoleRow ⟨"m", "s", [], 10, 7, 3, 12, 50000, 4, 1⟩
          = padTo 20 "m" ++ " " ++ padTo 6 (toString 7) ++ " "
            ++ padTo 6 (toString 10) ++ " " ++ padTo 6 (toString (7 * 100 / 10))
            ++ " " ++ padTo 6 (toString 12) ++ " " ++ padTo 8 (toString 4)
            ++ " " ++ padTo 8 (toString 1) ++ " " ++ padTo 8 (toString (50000 / 10)) :=
  C4_success_rate_is_floor_percentage
    ⟨"m", "s", [], 10, 7, 3, 12, 50000, 4, 1⟩ (by decide)

/-- C10: at the end of a completed model run, `total_tools` is the sum of
the lengths of the reported tool lists, `parallel_count` counts the
scenarios whose response reported at least two tools, and `context_count`
counts the scenarios of category "context" whose response reported at
least one tool. -/
theorem C10_tool_counters_are_folds
    (model session date : String) (oracle : Nat → ChatOutcome)
    (h : ∀ i, oracle i ≠ ChatOutcome.netError) :
    ∃ r ws, run_model_tests model session date oracle = .ok (r, ws)
      ∧ r.total_tools = (r.tests.map (fun t => t.tools.length)).sum
      ∧ r.parallel_count = r.tests.countP (fun t => decide (2 ≤ t.tools.length))
      ∧ r.context_count
          = r.tests.countP
              (fun t => t.category == "context" && decide (0 < t.tools.length)) := by
  have htests := pureRun_tests oracle SCENARIOS 0 (initResults model session)
  have hmem := testsOf_tools_count_mem oracle SCENARIOS 0
  refine ⟨pureRun oracle SCENARIOS 0 (initResults model session),
    headerWrites model session date ++ pureWrites oracle SCENARIOS 0
      ++ summaryWrites (pureRun oracle SCENARIOS 0 (initResults model session)),
    ?_, ?_, ?_, ?_⟩
  · rw [run_model_tests, processScenarios_eq oracle h]
  · rw [pureRun_total_tools, htests]
    simp only [initResults, List.nil_append]
    rw [List.map_congr_left (fun t ht => hmem t ht)]
    omega
  · rw [pureRun_parallel, htests]
    simp only [initResults, List.nil_append]
    rw [List.countP_congr (fun t ht => by rw [hmem t ht])]
    omega
  · rw [pureRun_context, htests]
    simp only [initResults, List.nil_append]
    rw [List.countP_congr (fun t ht => by rw [hmem t ht])]
    omega

/-- C10 witness: the counter identities hold for an all-timeout run. -/
theorem C10_witness :
    ∃ r ws, run_model_tests "gpt-oss:20b" "sess-1" "2026-01-01 00:00:00"
        (fun _ => ChatOutcome.timeoutExc) = .ok (r, ws)
      ∧ r.total_tools = (r.tests.map (fun t => t.tools.length)).sum
      ∧ r.parallel_count = r.tests.countP (fun t => decide (2 ≤ t.tools.length))
      ∧ r.context_count
          = r.tests.countP
              (fun t => t.category == "context" && decide (0 < t.tools.length)) :=
  C10_tool_counters_are_folds "gpt-oss:20b" "sess-1" "2026-01-01 00:00:00"
    (fun _ => ChatOutcome.timeoutExc) (fun _ h => ChatOutcome.noConfusion h)

/-- C5 (code bug): the spec says every failed record POST prints an error
and the seeder continues to the next record, with nothing fatal.  The code
aborts instead: `create_device(**device)` binds dict keys `id`/`type`
against parameters `device_id`/`device_type`, raising `TypeError` outside
the helper's `try` at the very first device record, before any device POST;
the command and telemetry loops are never reached.  The alert records,
whose keywords do bind, are processed record by record — though even a
reached command failure would print nothing. -/
theorem C5_seeder_aborts_at_first_device_record (oracle : Nat → HttpOutcome)
    (a : AlertSpec) :
    bindKwargs create_alert_params (alertKwargs a) = some (alertKwargs a)
      ∧ bindKwargs create_device_params
          (deviceKwargs ⟨"light/living", "客厅灯", "light"⟩) = none
      ∧ runDevices oracle DEVICES_DATA 0
          = .error ("TypeError: create_device() got an unexpected keyword argument", [])
      ∧ send_command "light/living" "on" (HttpOutcome.status 500 "boom" none)
          = (none, []) := by
  exact ⟨rfl, rfl, rfl, rfl⟩

/-- C6 counterexample: the claim says every alert POST answered with HTTP
200 increments the created-alerts count by one; but `main` increments only
when the returned value is truthy (`if result:`), and `create_alert`
returns the parsed body — a 200 answer whose body parses to an empty JSON
object is falsy, so a run in which the server accepts all 17 alerts with
200 and such bodies reports 0 created alerts. -/
theorem C6_counterexample :
    runAlerts (fun _ => HttpOutcome.status 200 "ok" (some (PyValue.dict [])))
        ALERTS_DATA 0 = 0
      ∧ ALERTS_DATA.length = 17 := by
  exact ⟨rfl, rfl⟩

/-- C6 (amended): an alert POST answered with HTTP 200 whose body parses to
a truthy JSON value increments `alerts_created` by exactly one, and a
device-creation POST answered with HTTP 409 is treated as success. -/
theorem C6_truthy_200_increments_and_409_is_success
    (a : AlertSpec) (t : String) (j : PyValue) (oracle : Nat → HttpOutcome)
    (rest : List AlertSpec) (i : Nat) (dev nm ty : String)
    (hj : j.truthy = true) (ho : oracle i = HttpOutcome.status 200 t (some j)) :
    alertCounted a (oracle i) = true
      ∧ runAlerts oracle (a :: rest) i = 1 + runAlerts oracle rest (i + 1)
      ∧ create_device dev nm ty (HttpOutcome.status 409 t none) = true := by
  have hc : alertCounted a (oracle i) = true := by
    rw [ho]; simp [alertCounted, create_alert, pyTruthyOpt, hj]
  refine ⟨hc, ?_, rfl⟩
  rw [runAlerts, hc]
  simp

/-- C6 witness: a 200 answer with body `\x7b"id": 1\x7d` increments the count by
one, concretely on the head of `ALERTS_DATA`. -/
theorem C6_witness :
    alertCounted ⟨"烟雾检测", "m", "emergency", "sensor/kitchen"⟩
        ((fun _ => HttpOutcome.status 200 "ok"
            (some (PyValue.dict [("id", PyValue.int 1)]))) 0) = true
      ∧ runAlerts (fun _ => HttpOutcome.status 200 "ok"
            (some (PyValue.dict [("id", PyValue.int 1)])))
          (⟨"烟雾检测", "m", "emergency", "sensor/kitchen"⟩ :: []) 0
          = 1 + runAlerts (fun _ => HttpOutcome.status 200 "ok"
              (some (PyValue.dict [("id", PyValue.int 1)]))) [] (0 + 1)
      ∧ create_device "lock/front" "前门锁" "lock"
          (HttpOutcome.status 409 "ok" none) = true :=
  C6_truthy_200_increments_and_409_is_success
    ⟨"烟雾检测", "m", "emergency", "sensor/kitchen"⟩ "ok"
    (PyValue.dict [("id", PyValue.int 1)])
    (fun _ => HttpOutcome.status 200 "ok"
      (some (PyValue.dict [("id", PyValue.int 1)])))
    [] 0 "lock/front" "前门锁" "lock" rfl rfl

/-- C8 (code bug): the claim says each seeder run issues device-creation
POSTs for exactly the fixed 10 pairwise-distinct device ids, which would
bound a double run against an idempotent endpoint by 10.  The static list
does hold 10 distinct ids, but no run ever issues a device POST: keyword
binding of the first record raises `TypeError` and the device loop aborts
with an empty posted-ids list. -/
theorem C8_no_device_posts_are_issued (oracle : Nat → HttpOutcome) :
    (DEVICES_DATA.map (fun d => d.id)).Nodup
      ∧ (DEVICES_DATA.map (fun d => d.id)).length = 10
      ∧ runDevices oracle DEVICES_DATA 0
          = .error ("TypeError: create_device() got an unexpected keyword argument", []) := by
  exact ⟨by decide, rfl, rfl⟩

end NeoMind
